import Mathlib

/-!
Shallow embedding of the log-broadcast subsystem of appium-mcp.

Sources:
- src/unnamed/part_000        (start-log-broadcast: executeStartLogBroadcast,
                               startAndroidLogs, startIosLogs, activeSessions)
- src/unnamed/part_001        (stop-log-broadcast: executeStopLogBroadcast)
- src/src/tools/logs/get-logs.ts          (executeGetLogs)
- src/src/tools/logs/clear-log-buffer.ts  (executeClearLogBuffer)
- src/src/tools/logs/list-log-sessions.ts (executeListLogSessions)

Modelling conventions:
- The `activeSessions` Map is passed explicitly as an association list
  (`Registry`) with Map-style lookup/insert/delete semantics.
- The external world of one start invocation (the axios device lookup, the
  spawned process id, the stdout chunks delivered during the 1000 ms settle
  delay, and the process exit code observed after that delay) is abstracted
  into a `StartEnv` record; the functions are otherwise translated line by
  line from the TypeScript.
- JavaScript truthiness of optional strings ("" and undefined are falsy) is
  modelled by `truthy` / `orDefault`.
- `line.trim()` truthiness ("does the line contain a non-whitespace
  character") is modelled by `nonBlank`.
- `ChildProcess.kill` possibly throwing inside `executeStopLogBroadcast` is
  modelled by an `Option String` argument carrying the thrown message, used
  only when a process handle exists (the code only calls kill then).
- console.error diagnostics and the stderr wiring have no observable effect
  on the data model and are not modelled.
-/

inductive Platform where
  | android
  | ios
deriving DecidableEq, Repr

/-- interface LogSession, src/unnamed/part_000 lines 9-17.
`logProcess` is the owned ChildProcess handle, abstracted to its pid. -/
structure LogSession where
  sessionId : String
  serverUrl : String
  platform : Platform
  deviceId : Option String
  logProcess : Option Nat
  logBuffer : List String
  isStreaming : Bool
deriving DecidableEq, Repr

/-- The `activeSessions : Map<string, LogSession>` global, passed explicitly. -/
abbrev Registry := List (String × LogSession)

def rlookup (reg : Registry) (k : String) : Option LogSession :=
  match reg with
  | [] => none
  | (k', s) :: rest => if k' = k then some s else rlookup rest k

def rinsert (reg : Registry) (k : String) (s : LogSession) : Registry :=
  match reg with
  | [] => [(k, s)]
  | (k', s') :: rest => if k' = k then (k, s) :: rest else (k', s') :: rinsert rest k s

def rdelete (reg : Registry) (k : String) : Registry :=
  match reg with
  | [] => []
  | (k', s') :: rest => if k' = k then rdelete rest k else (k', s') :: rdelete rest k

/-- JavaScript truthiness of an optional string: undefined and "" are falsy. -/
def truthy : Option String → Bool
  | none => false
  | some s => !(s == "")

/-- JavaScript `x || fallback` on an optional string. -/
def orDefault (x : Option String) (fallback : String) : String :=
  match x with
  | some s => if s = "" then fallback else s
  | none => fallback

/-- Truthiness of `line.trim()`: the line has a non-whitespace character. -/
def nonBlank (line : String) : Bool :=
  line.toList.any fun c => !c.isWhitespace

/-- One append to the session buffer, src/unnamed/part_000 lines 118-122
(identical code at lines 228-232): push, then if length > 10000 shift the
oldest line off the front. -/
def pushLine (buf : List String) (line : String) : List String :=
  let b := buf ++ [line]
  if b.length > 10000 then b.tail else b

/-- One iteration of the `for (const line of lines)` loop, src/unnamed/part_000
lines 116-124: blank lines (falsy `line.trim()`) are discarded. -/
def pushStep (buf : List String) (line : String) : List String :=
  if nonBlank line then pushLine buf line else buf

def pushLines (buf : List String) (lines : List String) : List String :=
  lines.foldl pushStep buf

/-- One stdout 'data' event, src/unnamed/part_000 lines 113-125 and 224-235:
the chunk is split on newlines and each non-blank fragment is pushed. -/
def processChunk (buf : List String) (chunk : String) : List String :=
  pushLines buf (chunk.splitOn "\n")

/-- The external world of one start invocation, as observed by the code. -/
structure StartEnv where
  /-- whether the axios GET to serverUrl/session/sessionId succeeded -/
  axiosOk : Bool
  /-- `response.data?.value?.capabilities?.["appium:udid"]` on success -/
  udidField : Option String
  /-- pid of the spawned capture process -/
  pid : Nat
  /-- chunks delivered to the stdout 'data' handler during the settle delay -/
  stdoutChunks : List String
  /-- `logProcess.exitCode` observed after the 1000 ms settle delay
  (none = still running) -/
  exitCodeAfterSettle : Option Int
deriving DecidableEq, Repr

/-- One `deps.spawn(...)` call: command, argument list, shell option. -/
structure SpawnCall where
  cmd : String
  args : List String
  shell : Bool
deriving DecidableEq, Repr

/-- Result of a start invocation: the registry after the call, the spawn the
call performed (none when the duplicate guard returned early), and either the
returned text or the thrown error message. -/
structure StartOutcome where
  registry : Registry
  spawned : Option SpawnCall
  result : Except String String

/-- Duplicate-guard text, src/unnamed/part_000 lines 51-58. -/
def alreadyActiveText (sessionId : String) (deviceId : Option String) : String :=
  "Log streaming is already active for session " ++ sessionId ++ "\nDevice: " ++
    orDefault deviceId "default"

/-- Thrown message of the android settle-delay check, src/unnamed/part_000
lines 150-154. -/
def androidFailureMsg (code : Int) : String :=
  "Failed to start adb logcat (exit code: " ++ toString code ++
    "). Make sure adb is installed and device is connected. Try running \x27adb devices\x27 to verify."

/-- Thrown message of the iOS settle-delay check, src/unnamed/part_000
lines 264-269. -/
def iosFailureMsg (isSimulator : Bool) : String :=
  if isSimulator then
    "Failed to start iOS simulator logs. Make sure Xcode is installed and simulator is running."
  else
    "Failed to start iOS device logs. Make sure \x27idevicesyslog\x27 is installed (brew install libimobiledevice) and device is connected."

/-- Success text of startAndroidLogs, src/unnamed/part_000 lines 171-184. -/
def androidSuccessText (sessionId : String) (deviceId : Option String)
    (adbCmd : String) : String :=
  "✅ Started Android log streaming for session " ++ sessionId ++
    "\nDevice: " ++ orDefault deviceId "default device" ++
    "\nCommand: " ++ adbCmd ++
    "\n\nLogs are being captured in real-time. Use \x27get_logs\x27 to retrieve them." ++
    "\n\n💡 Tip: Wait a few seconds for logs to buffer, then call get_logs to see them."

/-- Success text of startIosLogs, src/unnamed/part_000 lines 282-296. -/
def iosSuccessText (sessionId : String) (deviceId : Option String)
    (toolName command : String) : String :=
  "✅ Started iOS log streaming for session " ++ sessionId ++
    "\nDevice: " ++ orDefault deviceId "default device" ++
    "\nType: " ++ toolName ++
    "\nCommand: " ++ command ++
    "\n\nLogs are being captured in real-time. Use \x27get_logs\x27 to retrieve them." ++
    "\n\n💡 Tip: Wait a few seconds for logs to buffer, then call get_logs to see them."

/-- startAndroidLogs, src/unnamed/part_000 lines 94-185. The stdout chunks
that arrive during the settle delay are folded into the fresh buffer; the
exit-code check and registration happen after the delay. -/
def startAndroidLogs (reg : Registry) (sessionId serverUrl : String)
    (deviceId : Option String) (env : StartEnv) : StartOutcome :=
  let adbCmd :=
    if truthy deviceId then "adb -s " ++ deviceId.getD "" ++ " logcat -v time"
    else "adb logcat -v time"
  let spawnCall : SpawnCall := { cmd := adbCmd, args := [], shell := true }
  let buf := env.stdoutChunks.foldl processChunk []
  match env.exitCodeAfterSettle with
  | some code =>
      { registry := reg, spawned := some spawnCall,
        result := Except.error (androidFailureMsg code) }
  | none =>
      { registry := rinsert reg sessionId
          { sessionId := sessionId, serverUrl := serverUrl,
            platform := Platform.android, deviceId := deviceId,
            logProcess := some env.pid, logBuffer := buf, isStreaming := true },
        spawned := some spawnCall,
        result := Except.ok (androidSuccessText sessionId deviceId adbCmd) }

/-- `deviceId && (deviceId.includes('-') || deviceId.length > 25)`,
src/unnamed/part_000 lines 199-200.  `includes('-')` for a single character
is membership of that character. -/
def isSimulatorId (deviceId : Option String) : Bool :=
  match deviceId with
  | none => false
  | some d => if d = "" then false else (d.toList.contains '-' || decide (d.length > 25))

/-- startIosLogs, src/unnamed/part_000 lines 187-297. -/
def startIosLogs (reg : Registry) (sessionId serverUrl : String)
    (deviceId : Option String) (env : StartEnv) : StartOutcome :=
  let isSimulator := isSimulatorId deviceId
  let command :=
    if isSimulator then
      if truthy deviceId then
        "xcrun simctl spawn " ++ deviceId.getD "" ++ " log stream --level debug"
      else "xcrun simctl spawn booted log stream --level debug"
    else
      if truthy deviceId then "idevicesyslog -u " ++ deviceId.getD ""
      else "idevicesyslog"
  let spawnCall : SpawnCall :=
    if isSimulator then
      { cmd := "xcrun",
        args :=
          if truthy deviceId then
            ["simctl", "spawn", deviceId.getD "", "log", "stream", "--level", "debug"]
          else ["simctl", "spawn", "booted", "log", "stream", "--level", "debug"],
        shell := false }
    else
      { cmd := "idevicesyslog",
        args := if truthy deviceId then ["-u", deviceId.getD ""] else [],
        shell := false }
  let toolName :=
    if isSimulator then "iOS Simulator (simctl)" else "iOS Device (idevicesyslog)"
  let buf := env.stdoutChunks.foldl processChunk []
  match env.exitCodeAfterSettle with
  | some _ =>
      { registry := reg, spawned := some spawnCall,
        result := Except.error (iosFailureMsg isSimulator) }
  | none =>
      { registry := rinsert reg sessionId
          { sessionId := sessionId, serverUrl := serverUrl,
            platform := Platform.ios, deviceId := deviceId,
            logProcess := some env.pid, logBuffer := buf, isStreaming := true },
        spawned := some spawnCall,
        result := Except.ok (iosSuccessText sessionId deviceId toolName command) }

/-- Device resolution, src/unnamed/part_000 lines 62-76: if the provided
deviceId is falsy, try the axios lookup; on a thrown request the variable
keeps its previous (falsy) value, on success it takes the udid field. -/
def resolveDeviceId (providedDeviceId : Option String) (env : StartEnv) :
    Option String :=
  if truthy providedDeviceId then providedDeviceId
  else if env.axiosOk then env.udidField
  else providedDeviceId

/-- executeStartLogBroadcast after the duplicate guard, src/unnamed/part_000
lines 62-91: resolve the device, create the empty buffer, dispatch on
platform. -/
def startAfterGuard (reg : Registry) (sessionId : String) (platform : Platform)
    (serverUrl : String) (providedDeviceId : Option String) (env : StartEnv) :
    StartOutcome :=
  let deviceId := resolveDeviceId providedDeviceId env
  match platform with
  | Platform.android => startAndroidLogs reg sessionId serverUrl deviceId env
  | Platform.ios => startIosLogs reg sessionId serverUrl deviceId env

/-- executeStartLogBroadcast, src/unnamed/part_000 lines 34-92. -/
def executeStartLogBroadcast (reg : Registry) (sessionId : String)
    (platform : Platform) (serverUrl? providedDeviceId : Option String)
    (env : StartEnv) : StartOutcome :=
  let serverUrl := orDefault serverUrl? "http://localhost:4723"
  match rlookup reg sessionId with
  | some session =>
      if session.isStreaming then
        { registry := reg, spawned := none,
          result := Except.ok (alreadyActiveText sessionId session.deviceId) }
      else startAfterGuard reg sessionId platform serverUrl providedDeviceId env
  | none => startAfterGuard reg sessionId platform serverUrl providedDeviceId env

/-- The condition of the early return at src/unnamed/part_000 lines 48-60. -/
def dupGuard (reg : Registry) (sessionId : String) : Bool :=
  match rlookup reg sessionId with
  | some session => session.isStreaming
  | none => false

/-- Not-found text shared by stop and clear (src/unnamed/part_001 line 20,
clear-log-buffer.ts line 20). -/
def notFoundText (sessionId : String) : String :=
  "No active log session found for " ++ sessionId

/-- Success text of executeStopLogBroadcast, src/unnamed/part_001 lines 41-43. -/
def stoppedText (sessionId : String) (deviceId : Option String)
    (logCount : Nat) : String :=
  "✅ Stopped log streaming for session " ++ sessionId ++
    "\nDevice: " ++ orDefault deviceId "default" ++
    "\nTotal logs captured: " ++ toString logCount ++ " lines"

/-- executeStopLogBroadcast, src/unnamed/part_001 lines 9-52.  `killError`
models `session.logProcess.kill('SIGTERM')` throwing with that message; the
kill is only attempted when a process handle exists.  In the catch block the
code deletes the session and then re-throws. -/
def executeStopLogBroadcast (reg : Registry) (sessionId : String)
    (killError : Option String) : Registry × Except String String :=
  match rlookup reg sessionId with
  | none => (reg, Except.ok (notFoundText sessionId))
  | some session =>
      let logCount := session.logBuffer.length
      match session.logProcess, killError with
      | some _, some msg =>
          (rdelete reg sessionId,
            Except.error ("Error stopping log streaming: " ++ msg))
      | _, _ =>
          (rdelete reg sessionId,
            Except.ok (stoppedText sessionId session.deviceId logCount))

/-- `args.maxLines || 100`, get-logs.ts line 18: 0 is falsy. -/
def resolveMaxLines (maxLines? : Option Nat) : Nat :=
  match maxLines? with
  | none => 100
  | some n => if n = 0 then 100 else n

/-- `logBuffer.slice(-maxLines)`, get-logs.ts line 32, for maxLines ≥ 1: the
last min(maxLines, length) elements.  (`resolveMaxLines` never yields 0, so
the n = 0 corner of JavaScript slice is never exercised.) -/
def jsSliceNeg (xs : List String) (n : Nat) : List String :=
  xs.drop (xs.length - n)

def platformUpper : Platform → String
  | Platform.android => "ANDROID"
  | Platform.ios => "IOS"

/-- The template literal of get-logs.ts lines 39-47. -/
def getLogsText (sessionId : String) (session : LogSession) (maxLines : Nat)
    (logs : List String) (totalCount : Nat) : String :=
  "=== " ++ platformUpper session.platform ++ " Logs for Session " ++ sessionId ++ " ===" ++
    "\nStatus: " ++ (if session.isStreaming then "Streaming" else "Stopped") ++
    "\nDevice: " ++ orDefault session.deviceId "default" ++
    "\nTotal logs captured: " ++ toString totalCount ++
    "\nShowing last " ++ toString logs.length ++ " lines:\n\n" ++
    String.intercalate "\n" logs ++ "\n\n" ++
    (if totalCount > maxLines then
      "\n(Showing " ++ toString maxLines ++ " of " ++ toString totalCount ++
        " total lines. Increase maxLines to see more.)"
    else "")

/-- Result of executeGetLogs: `logs` and `totalCount` mirror the local
variables of get-logs.ts lines 32-33, `truncated` the condition of the
ternary on line 47, `text` the returned text block.  In the not-found branch
(lines 21-30) only `text` is produced by the code; the other fields take
vacuous defaults. -/
structure GetLogsOutcome where
  found : Bool
  logs : List String
  totalCount : Nat
  truncated : Bool
  text : String
deriving DecidableEq, Repr

/-- executeGetLogs, get-logs.ts lines 13-51. -/
def executeGetLogs (reg : Registry) (sessionId : String)
    (maxLines? : Option Nat) : GetLogsOutcome :=
  let maxLines := resolveMaxLines maxLines?
  match rlookup reg sessionId with
  | none =>
      { found := false, logs := [], totalCount := 0, truncated := false,
        text := "No active log session found for " ++ sessionId ++
          ". Use \x27start_log_broadcast\x27 first." }
  | some session =>
      let logs := jsSliceNeg session.logBuffer maxLines
      let totalCount := session.logBuffer.length
      { found := true, logs := logs, totalCount := totalCount,
        truncated := decide (totalCount > maxLines),
        text := getLogsText sessionId session maxLines logs totalCount }

/-- Success text of executeClearLogBuffer, clear-log-buffer.ts line 33. -/
def clearedText (clearedCount : Nat) (sessionId : String) : String :=
  "Cleared " ++ toString clearedCount ++ " log lines from buffer for session " ++
    sessionId ++ ". Log streaming continues."

/-- executeClearLogBuffer, clear-log-buffer.ts lines 9-37.
`session.logBuffer.length = 0` empties the buffer of the registered session
in place; everything else is untouched. -/
def executeClearLogBuffer (reg : Registry) (sessionId : String) :
    Registry × String :=
  match rlookup reg sessionId with
  | none => (reg, notFoundText sessionId)
  | some session =>
      let clearedCount := session.logBuffer.length
      (rinsert reg sessionId { session with logBuffer := [] },
        clearedText clearedCount sessionId)

def platformLower : Platform → String
  | Platform.android => "android"
  | Platform.ios => "ios"

/-- Per-session block of executeListLogSessions, list-log-sessions.ts
lines 22-27. -/
def sessionSummary (session : LogSession) : String :=
  "- Session: " ++ session.sessionId ++
    "\n  Platform: " ++ platformLower session.platform ++
    "\n  Device: " ++ orDefault session.deviceId "default" ++
    "\n  Server: " ++ session.serverUrl ++
    "\n  Status: " ++ (if session.isStreaming then "Streaming" else "Stopped") ++
    "\n  Logs buffered: " ++ toString session.logBuffer.length

/-- executeListLogSessions, list-log-sessions.ts lines 7-39. -/
def executeListLogSessions (reg : Registry) : String :=
  if reg.length = 0 then "No active log streaming sessions."
  else
    "Active Log Sessions (" ++ toString reg.length ++ "):\n\n" ++
      String.intercalate "\n\n" (reg.map fun p => sessionSummary p.2)

/-! ### Registry lemmas -/

theorem rlookup_rinsert_self (reg : Registry) (k : String) (s : LogSession) :
    rlookup (rinsert reg k s) k = some s := by
  induction reg with
  | nil => simp [rinsert, rlookup]
  | cons p rest ih =>
      obtain ⟨k0, s0⟩ := p
      by_cases h : k0 = k <;> simp [rinsert, rlookup, h, ih]

theorem rlookup_rinsert_ne (reg : Registry) (k k' : String) (s : LogSession)
    (h : k' ≠ k) : rlookup (rinsert reg k s) k' = rlookup reg k' := by
  have hk : k ≠ k' := fun hh => h hh.symm
  induction reg with
  | nil => simp [rinsert, rlookup, hk]
  | cons p rest ih =>
      obtain ⟨k0, s0⟩ := p
      by_cases h0 : k0 = k
      · subst h0
        simp [rinsert, rlookup, hk]
      · by_cases h1 : k0 = k'
        · subst h1
          simp [rinsert, rlookup, h0]
        · simp [rinsert, rlookup, h0, h1, ih]

theorem rlookup_rdelete_self (reg : Registry) (k : String) :
    rlookup (rdelete reg k) k = none := by
  induction reg with
  | nil => simp [rdelete, rlookup]
  | cons p rest ih =>
      obtain ⟨k0, s0⟩ := p
      by_cases h0 : k0 = k <;> simp [rdelete, rlookup, h0, ih]

theorem rlookup_rdelete_ne (reg : Registry) (k k' : String)
    (h : k' ≠ k) : rlookup (rdelete reg k) k' = rlookup reg k' := by
  induction reg with
  | nil => simp [rdelete, rlookup]
  | cons p rest ih =>
      obtain ⟨k0, s0⟩ := p
      by_cases h0 : k0 = k
      · subst h0
        have hk : ¬k0 = k' := fun hh => h hh.symm
        simp [rdelete, rlookup, hk, ih]
      · by_cases h1 : k0 = k'
        · subst h1
          simp [rdelete, rlookup, h0]
        · simp [rdelete, rlookup, h0, h1, ih]

theorem not_mem_keys_rdelete (reg : Registry) (k : String) :
    k ∉ (rdelete reg k).map Prod.fst := by
  induction reg with
  | nil => simp [rdelete]
  | cons p rest ih =>
      obtain ⟨k0, s0⟩ := p
      by_cases h0 : k0 = k
      · simpa [rdelete, h0] using ih
      · simp only [rdelete, if_neg h0, List.map_cons, List.mem_cons]
        push_neg
        exact ⟨fun hh => h0 hh.symm, ih⟩

/-! ### Buffer lemmas -/

theorem pushLine_length_le (buf : List String) (line : String)
    (h : buf.length ≤ 10000) : (pushLine buf line).length ≤ 10000 := by
  simp only [pushLine]
  split
  next hc =>
    simp only [List.length_tail, List.length_append, List.length_singleton] at hc ⊢
    omega
  next hc =>
    simp only [List.length_append, List.length_singleton] at hc ⊢
    omega

theorem pushStep_length_le (buf : List String) (line : String)
    (h : buf.length ≤ 10000) : (pushStep buf line).length ≤ 10000 := by
  unfold pushStep
  by_cases hb : nonBlank line
  · simpa [hb] using pushLine_length_le buf line h
  · simpa [hb] using h

theorem pushLines_length_le (lines : List String) (buf : List String)
    (h : buf.length ≤ 10000) : (pushLines buf lines).length ≤ 10000 := by
  induction lines generalizing buf with
  | nil => simpa [pushLines] using h
  | cons l ls ih =>
      show (pushLines (pushStep buf l) ls).length ≤ 10000
      exact ih (pushStep buf l) (pushStep_length_le buf l h)

theorem processChunk_length_le (buf : List String) (chunk : String)
    (h : buf.length ≤ 10000) : (processChunk buf chunk).length ≤ 10000 :=
  pushLines_length_le _ _ h

theorem pushLine_eq_drop (buf : List String) (l : String)
    (h : buf.length ≤ 10000) :
    pushLine buf l = (buf ++ [l]).drop (buf.length + 1 - 10000) := by
  simp only [pushLine]
  split
  next hc =>
    simp only [List.length_append, List.length_singleton] at hc
    have hb : buf.length + 1 - 10000 = 1 := by omega
    rw [hb]
    exact (List.drop_one _).symm
  next hc =>
    simp only [List.length_append, List.length_singleton] at hc
    have hz : buf.length + 1 - 10000 = 0 := by omega
    rw [hz, List.drop_zero]

theorem pushLines_eq_drop (lines : List String) :
    ∀ buf : List String, buf.length ≤ 10000 →
      (∀ l ∈ lines, nonBlank l = true) →
      pushLines buf lines = (buf ++ lines).drop (buf.length + lines.length - 10000) := by
  induction lines with
  | nil =>
      intro buf h _
      simp [pushLines, Nat.sub_eq_zero_of_le h]
  | cons l ls ih =>
      intro buf h hnb
      have hl : nonBlank l = true := hnb l (by simp)
      have hstep : pushLines buf (l :: ls) = pushLines (pushLine buf l) ls := by
        show pushLines (pushStep buf l) ls = pushLines (pushLine buf l) ls
        rw [pushStep, if_pos hl]
      rw [hstep,
        ih (pushLine buf l) (pushLine_length_le buf l h)
          (fun x hx => hnb x (by simp [hx])),
        pushLine_eq_drop buf l h]
      have hlen : ((buf ++ [l]).drop (buf.length + 1 - 10000)).length =
          buf.length + 1 - (buf.length + 1 - 10000) := by
        simp
      have hd : buf.length + 1 - 10000 ≤ (buf ++ [l]).length := by
        simp only [List.length_append, List.length_singleton]
        omega
      rw [← List.drop_append_of_le_length hd, List.drop_drop, hlen]
      have harr : (buf ++ [l]) ++ ls = buf ++ l :: ls := by simp
      rw [harr]
      have hnum : buf.length + 1 - 10000 +
          (buf.length + 1 - (buf.length + 1 - 10000) + ls.length - 10000) =
          buf.length + (l :: ls).length - 10000 := by
        simp only [List.length_cons]
        omega
      rw [hnum]

/-! ### Claim theorems -/

/-- Claim C1: for every sequence of incoming chunks the buffer built by the
stdout handler never exceeds 10000 lines, and pushing 10050 non-blank lines
one at a time leaves exactly the last 10000 lines in original push order
(oldest evicted first). -/
theorem log_buffer_bounded_and_fifo :
    (∀ chunks : List String, (chunks.foldl processChunk []).length ≤ 10000) ∧
    (∀ lines : List String, (∀ l ∈ lines, nonBlank l = true) →
      lines.length = 10050 → pushLines [] lines = lines.drop 50) := by
  constructor
  · intro chunks
    have hgen : ∀ (cs : List String) (buf : List String), buf.length ≤ 10000 →
        (cs.foldl processChunk buf).length ≤ 10000 := by
      intro cs
      induction cs with
      | nil => intro buf h; simpa using h
      | cons c cs ih =>
          intro buf h
          exact ih (processChunk buf c) (processChunk_length_le buf c h)
    exact hgen chunks [] (by simp)
  · intro lines hnb hlen
    have h := pushLines_eq_drop lines [] (by simp) hnb
    simpa [hlen] using h

/-- Witness for C1 at concrete inputs. -/
theorem log_buffer_bounded_and_fifo_check :
    ((["08-10 12:00:00 I/tag: hello\n08-10 12:00:01 I/tag: world"].foldl
        processChunk []).length ≤ 10000) ∧
    pushLines [] (List.replicate 10050 "x") = (List.replicate 10050 "x").drop 50 := by
  constructor
  · exact log_buffer_bounded_and_fifo.1 _
  · refine log_buffer_bounded_and_fifo.2 _ ?_ ?_
    · intro l hl
      have he := List.eq_of_mem_replicate hl
      subst he
      decide
    · rw [List.length_replicate]

/-- Claim C9: `maxLines = 0` is falsy in `args.maxLines || 100`, so
`get(sessionId, 0)` behaves exactly like omitting maxLines and the effective
limit is 100. -/
theorem get_logs_maxlines_zero_defaults (reg : Registry) (sessionId : String) :
    executeGetLogs reg sessionId (some 0) = executeGetLogs reg sessionId none ∧
    resolveMaxLines (some 0) = 100 :=
  ⟨rfl, rfl⟩

/-- Claim C7: for an unknown sessionId, get, clear and stop all return an
informational not-found text, none of them raises, and the registry is left
unchanged. -/
theorem not_found_informational (reg : Registry) (sessionId : String)
    (maxLines? : Option Nat) (killError : Option String)
    (habs : rlookup reg sessionId = none) :
    (executeGetLogs reg sessionId maxLines?).found = false ∧
    (executeGetLogs reg sessionId maxLines?).text =
      "No active log session found for " ++ sessionId ++
        ". Use \x27start_log_broadcast\x27 first." ∧
    executeClearLogBuffer reg sessionId = (reg, notFoundText sessionId) ∧
    executeStopLogBroadcast reg sessionId killError =
      (reg, Except.ok (notFoundText sessionId)) := by
  unfold executeGetLogs executeClearLogBuffer executeStopLogBroadcast
  rw [habs]
  exact ⟨rfl, rfl, rfl, rfl⟩

/-- Witness for C7 at a concrete unknown session. -/
theorem not_found_informational_check :
    (executeGetLogs [] "ghost" none).found = false ∧
    (executeGetLogs [] "ghost" none).text =
      "No active log session found for " ++ "ghost" ++
        ". Use \x27start_log_broadcast\x27 first." ∧
    executeClearLogBuffer [] "ghost" = ([], notFoundText "ghost") ∧
    executeStopLogBroadcast [] "ghost" none =
      ([], Except.ok (notFoundText "ghost")) :=
  not_found_informational [] "ghost" none none rfl

/-- Claim C8: clear returns a cleared count equal to the buffer length before
the call, empties the buffer (a following get reports total 0), and leaves
everything else of the session and of the registry unchanged. -/
theorem clear_buffer_frame (reg : Registry) (sessionId : String)
    (s : LogSession) (hs : rlookup reg sessionId = some s) :
    (executeClearLogBuffer reg sessionId).2 =
      clearedText s.logBuffer.length sessionId ∧
    rlookup (executeClearLogBuffer reg sessionId).1 sessionId =
      some { s with logBuffer := [] } ∧
    (executeGetLogs (executeClearLogBuffer reg sessionId).1 sessionId none).totalCount = 0 ∧
    (∀ k, k ≠ sessionId →
      rlookup (executeClearLogBuffer reg sessionId).1 k = rlookup reg k) := by
  have hfst : (executeClearLogBuffer reg sessionId).1 =
      rinsert reg sessionId { s with logBuffer := [] } := by
    unfold executeClearLogBuffer
    rw [hs]
  have hsnd : (executeClearLogBuffer reg sessionId).2 =
      clearedText s.logBuffer.length sessionId := by
    unfold executeClearLogBuffer
    rw [hs]
  refine ⟨hsnd, ?_, ?_, ?_⟩
  · rw [hfst]
    exact rlookup_rinsert_self reg sessionId _
  · rw [hfst]
    unfold executeGetLogs
    rw [rlookup_rinsert_self reg sessionId _]
    rfl
  · intro k hk
    rw [hfst]
    exact rlookup_rinsert_ne reg sessionId k _ hk

def clearDemoSession : LogSession :=
  { sessionId := "s1", serverUrl := "http://localhost:4723",
    platform := Platform.android, deviceId := some "emulator-5554",
    logProcess := some 11, logBuffer := ["a", "b", "c", "d", "e"],
    isStreaming := true }

def otherDemoSession : LogSession :=
  { sessionId := "s2", serverUrl := "http://localhost:4723",
    platform := Platform.ios, deviceId := none, logProcess := some 12,
    logBuffer := ["x"], isStreaming := false }

def clearDemoReg : Registry := [("s1", clearDemoSession), ("s2", otherDemoSession)]

/-- Witness for C8: clearing a 5-line buffer returns cleared-count 5,
a following get reports total 0, and the sibling session is untouched. -/
theorem clear_buffer_frame_check :
    (executeClearLogBuffer clearDemoReg "s1").2 = clearedText 5 "s1" ∧
    rlookup (executeClearLogBuffer clearDemoReg "s1").1 "s1" =
      some { clearDemoSession with logBuffer := [] } ∧
    (executeGetLogs (executeClearLogBuffer clearDemoReg "s1").1 "s1" none).totalCount = 0 ∧
    rlookup (executeClearLogBuffer clearDemoReg "s1").1 "s2" =
      rlookup clearDemoReg "s2" := by
  have h := clear_buffer_frame clearDemoReg "s1" clearDemoSession rfl
  exact ⟨h.1, h.2.1, h.2.2.1, h.2.2.2 "s2" (by decide)⟩

/-- Claim C5: for a registered session and positive maxLines, get returns the
last min(maxLines, total) buffered lines in original order, reports the total
buffered count, and flags truncation exactly when the total exceeds maxLines. -/
theorem get_logs_returns_tail (reg : Registry) (sessionId : String)
    (s : LogSession) (maxLines : Nat)
    (hs : rlookup reg sessionId = some s) (hpos : 1 ≤ maxLines) :
    (executeGetLogs reg sessionId (some maxLines)).found = true ∧
    (executeGetLogs reg sessionId (some maxLines)).logs =
      s.logBuffer.drop (s.logBuffer.length - maxLines) ∧
    (executeGetLogs reg sessionId (some maxLines)).logs.length =
      min maxLines s.logBuffer.length ∧
    s.logBuffer.take (s.logBuffer.length - maxLines) ++
      (executeGetLogs reg sessionId (some maxLines)).logs = s.logBuffer ∧
    (executeGetLogs reg sessionId (some maxLines)).totalCount =
      s.logBuffer.length ∧
    ((executeGetLogs reg sessionId (some maxLines)).truncated = true ↔
      maxLines < s.logBuffer.length) := by
  have hm : resolveMaxLines (some maxLines) = maxLines := by
    unfold resolveMaxLines
    have hz : ¬maxLines = 0 := by omega
    simp [hz]
  have hout : executeGetLogs reg sessionId (some maxLines) =
      { found := true, logs := jsSliceNeg s.logBuffer maxLines,
        totalCount := s.logBuffer.length,
        truncated := decide (s.logBuffer.length > maxLines),
        text := getLogsText sessionId s maxLines
          (jsSliceNeg s.logBuffer maxLines) s.logBuffer.length } := by
    unfold executeGetLogs
    rw [hm, hs]
  rw [hout]
  refine ⟨rfl, rfl, ?_, ?_, rfl, ?_⟩
  · simp only [jsSliceNeg, List.length_drop]
    omega
  · exact List.take_append_drop _ _
  · simp only [decide_eq_true_eq, gt_iff_lt]

def getDemoSession : LogSession :=
  { sessionId := "s1", serverUrl := "http://localhost:4723",
    platform := Platform.android, deviceId := none, logProcess := some 21,
    logBuffer := ["a", "b", "c"], isStreaming := true }

def getDemoReg : Registry := [("s1", getDemoSession)]

/-- Witness for C5: with buffer contents a, b, c, get(s1, 2) returns the
lines b and c, total 3, showing 2, with the truncation indicator set. -/
theorem get_logs_returns_tail_check :
    (executeGetLogs getDemoReg "s1" (some 2)).found = true ∧
    (executeGetLogs getDemoReg "s1" (some 2)).logs = ["b", "c"] ∧
    (executeGetLogs getDemoReg "s1" (some 2)).logs.length = 2 ∧
    (executeGetLogs getDemoReg "s1" (some 2)).totalCount = 3 ∧
    (executeGetLogs getDemoReg "s1" (some 2)).truncated = true := by
  have h := get_logs_returns_tail getDemoReg "s1" getDemoSession 2 rfl (by decide)
  exact ⟨h.1, by decide, by decide, h.2.2.2.2.1, h.2.2.2.2.2.mpr (by decide)⟩

/-- Claim C2: when the spawned capture process has terminated by the end of
the 1000 ms settle delay, start throws the platform-specific remediation
message and the registry is unchanged — no session gets registered. -/
theorem start_settle_failure (reg : Registry) (sessionId : String)
    (p : Platform) (serverUrl? providedDeviceId : Option String)
    (env : StartEnv) (code : Int)
    (hdup : dupGuard reg sessionId = false)
    (hexit : env.exitCodeAfterSettle = some code) :
    (executeStartLogBroadcast reg sessionId p serverUrl? providedDeviceId env).registry = reg ∧
    (executeStartLogBroadcast reg sessionId p serverUrl? providedDeviceId env).result =
      Except.error (match p with
        | Platform.android => androidFailureMsg code
        | Platform.ios =>
            iosFailureMsg (isSimulatorId (resolveDeviceId providedDeviceId env))) := by
  have hafter : ∀ su : String,
      (startAfterGuard reg sessionId p su providedDeviceId env).registry = reg ∧
      (startAfterGuard reg sessionId p su providedDeviceId env).result =
        Except.error (match p with
          | Platform.android => androidFailureMsg code
          | Platform.ios =>
              iosFailureMsg (isSimulatorId (resolveDeviceId providedDeviceId env))) := by
    intro su
    cases p
    · constructor <;> simp [startAfterGuard, startAndroidLogs, hexit]
    · constructor <;> simp [startAfterGuard, startIosLogs, hexit]
  cases hr : rlookup reg sessionId with
  | none =>
      have hu : executeStartLogBroadcast reg sessionId p serverUrl? providedDeviceId env =
          startAfterGuard reg sessionId p
            (orDefault serverUrl? "http://localhost:4723") providedDeviceId env := by
        simp [executeStartLogBroadcast, hr]
      rw [hu]
      exact hafter _
  | some s =>
      have hstream : s.isStreaming = false := by
        simpa [dupGuard, hr] using hdup
      have hu : executeStartLogBroadcast reg sessionId p serverUrl? providedDeviceId env =
          startAfterGuard reg sessionId p
            (orDefault serverUrl? "http://localhost:4723") providedDeviceId env := by
        simp [executeStartLogBroadcast, hr, hstream]
      rw [hu]
      exact hafter _

/-- Witness for C2: an android start whose process has exit code 1 after the
settle delay throws the adb remediation message and registers nothing. -/
theorem start_settle_failure_check :
    (executeStartLogBroadcast [] "s1" Platform.android none none
        { axiosOk := false, udidField := none, pid := 3, stdoutChunks := [],
          exitCodeAfterSettle := some 1 }).registry = [] ∧
    (executeStartLogBroadcast [] "s1" Platform.android none none
        { axiosOk := false, udidField := none, pid := 3, stdoutChunks := [],
          exitCodeAfterSettle := some 1 }).result =
      Except.error (androidFailureMsg 1) :=
  start_settle_failure [] "s1" Platform.android none none
    { axiosOk := false, udidField := none, pid := 3, stdoutChunks := [],
      exitCodeAfterSettle := some 1 } 1 rfl rfl

/-- Claim C3: while a registered session is streaming, two successive start
calls for its sessionId each spawn no process, leave the registry unchanged,
and both return the same already-active session description. -/
theorem duplicate_start_same_description (reg : Registry) (sessionId : String)
    (p1 p2 : Platform) (su1 su2 d1 d2 : Option String) (env1 env2 : StartEnv)
    (s : LogSession) (hs : rlookup reg sessionId = some s)
    (hstream : s.isStreaming = true) :
    (executeStartLogBroadcast reg sessionId p1 su1 d1 env1).spawned = none ∧
    (executeStartLogBroadcast reg sessionId p1 su1 d1 env1).registry = reg ∧
    (executeStartLogBroadcast (executeStartLogBroadcast reg sessionId p1 su1 d1 env1).registry
        sessionId p2 su2 d2 env2).spawned = none ∧
    (executeStartLogBroadcast (executeStartLogBroadcast reg sessionId p1 su1 d1 env1).registry
        sessionId p2 su2 d2 env2).result =
      (executeStartLogBroadcast reg sessionId p1 su1 d1 env1).result ∧
    (executeStartLogBroadcast reg sessionId p1 su1 d1 env1).result =
      Except.ok (alreadyActiveText sessionId s.deviceId) := by
  have h1 : executeStartLogBroadcast reg sessionId p1 su1 d1 env1 =
      { registry := reg, spawned := none,
        result := Except.ok (alreadyActiveText sessionId s.deviceId) } := by
    simp [executeStartLogBroadcast, hs, hstream]
  have h2 : executeStartLogBroadcast reg sessionId p2 su2 d2 env2 =
      { registry := reg, spawned := none,
        result := Except.ok (alreadyActiveText sessionId s.deviceId) } := by
    simp [executeStartLogBroadcast, hs, hstream]
  rw [h1]
  exact ⟨rfl, rfl, by rw [h2], by rw [h2], rfl⟩

def dupDemoSession : LogSession :=
  { sessionId := "s1", serverUrl := "http://localhost:4723",
    platform := Platform.android, deviceId := some "emulator-5554",
    logProcess := some 31, logBuffer := [], isStreaming := true }

def dupDemoEnv : StartEnv :=
  { axiosOk := false, udidField := none, pid := 32, stdoutChunks := [],
    exitCodeAfterSettle := none }

/-- Witness for C3 at a concrete streaming session. -/
theorem duplicate_start_same_description_check :
    (executeStartLogBroadcast [("s1", dupDemoSession)] "s1" Platform.android
        none none dupDemoEnv).spawned = none ∧
    (executeStartLogBroadcast [("s1", dupDemoSession)] "s1" Platform.android
        none none dupDemoEnv).registry = [("s1", dupDemoSession)] ∧
    (executeStartLogBroadcast
        (executeStartLogBroadcast [("s1", dupDemoSession)] "s1" Platform.android
          none none dupDemoEnv).registry "s1" Platform.android none none
        dupDemoEnv).spawned = none ∧
    (executeStartLogBroadcast
        (executeStartLogBroadcast [("s1", dupDemoSession)] "s1" Platform.android
          none none dupDemoEnv).registry "s1" Platform.android none none
        dupDemoEnv).result =
      (executeStartLogBroadcast [("s1", dupDemoSession)] "s1" Platform.android
        none none dupDemoEnv).result ∧
    (executeStartLogBroadcast [("s1", dupDemoSession)] "s1" Platform.android
        none none dupDemoEnv).result =
      Except.ok (alreadyActiveText "s1" (some "emulator-5554")) :=
  duplicate_start_same_description [("s1", dupDemoSession)] "s1"
    Platform.android Platform.android none none none none dupDemoEnv dupDemoEnv
    dupDemoSession rfl rfl

def stopDemoSession : LogSession :=
  { sessionId := "s1", serverUrl := "http://localhost:4723",
    platform := Platform.android, deviceId := none, logProcess := some 41,
    logBuffer := ["l1", "l2"], isStreaming := true }

def stopDemoReg : Registry := [("s1", stopDemoSession)]

/-- Counterexample to C4 as stated: when delivering the termination signal
fails, the code deletes the session but then re-throws — the failure is
raised as an error, not reported in a result text. -/
theorem stop_kill_failure_raises :
    (executeStopLogBroadcast stopDemoReg "s1" (some "kill failed")).2 =
      Except.error ("Error stopping log streaming: " ++ "kill failed") ∧
    rlookup (executeStopLogBroadcast stopDemoReg "s1" (some "kill failed")).1 "s1" =
      none :=
  ⟨rfl, rfl⟩

/-- Claim C4 (amended): stop removes a present session from the registry
unconditionally and leaves every other entry alone; on the success path it
returns the buffered line count captured before removal, but when signal
delivery fails it raises an error carrying the failure message instead of
returning a result text. -/
theorem stop_removes_session (reg : Registry) (sessionId : String)
    (killError : Option String) (s : LogSession)
    (hs : rlookup reg sessionId = some s) :
    rlookup (executeStopLogBroadcast reg sessionId killError).1 sessionId = none ∧
    sessionId ∉ ((executeStopLogBroadcast reg sessionId killError).1.map Prod.fst) ∧
    (∀ k, k ≠ sessionId →
      rlookup (executeStopLogBroadcast reg sessionId killError).1 k = rlookup reg k) ∧
    ((s.logProcess = none ∨ killError = none) →
      (executeStopLogBroadcast reg sessionId killError).2 =
        Except.ok (stoppedText sessionId s.deviceId s.logBuffer.length)) ∧
    (∀ pid msg, s.logProcess = some pid → killError = some msg →
      (executeStopLogBroadcast reg sessionId killError).2 =
        Except.error ("Error stopping log streaming: " ++ msg)) := by
  have hfst : (executeStopLogBroadcast reg sessionId killError).1 =
      rdelete reg sessionId := by
    simp only [executeStopLogBroadcast, hs]
    cases hp : s.logProcess <;> cases hk : killError <;> simp [hp, hk]
  refine ⟨?_, ?_, ?_, ?_, ?_⟩
  · rw [hfst]
    exact rlookup_rdelete_self reg sessionId
  · rw [hfst]
    exact not_mem_keys_rdelete reg sessionId
  · intro k hk
    rw [hfst]
    exact rlookup_rdelete_ne reg sessionId k hk
  · intro hok
    simp only [executeStopLogBroadcast, hs]
    rcases hok with hp | hk
    · cases hkk : killError <;> simp [hp, hkk]
    · cases hpp : s.logProcess <;> simp [hk, hpp]
  · intro pid msg hp hk
    simp only [executeStopLogBroadcast, hs]
    rw [hp, hk]

/-- Witness for C4 (amended): stopping a present session removes it; on the
success path the returned text carries the pre-removal count of 2 lines. -/
theorem stop_removes_session_check :
    rlookup (executeStopLogBroadcast stopDemoReg "s1" none).1 "s1" = none ∧
    "s1" ∉ ((executeStopLogBroadcast stopDemoReg "s1" none).1.map Prod.fst) ∧
    rlookup (executeStopLogBroadcast stopDemoReg "s1" none).1 "s2" =
      rlookup stopDemoReg "s2" ∧
    (executeStopLogBroadcast stopDemoReg "s1" none).2 =
      Except.ok (stoppedText "s1" none 2) := by
  have h := stop_removes_session stopDemoReg "s1" none stopDemoSession rfl
  exact ⟨h.1, h.2.1, h.2.2.1 "s2" (by decide), h.2.2.2.1 (Or.inr rfl)⟩

/-- The spawn call performed by startIosLogs, independent of the settle
outcome: xcrun simctl on the simulator path, idevicesyslog on the device
path (src/unnamed/part_000 lines 198-220). -/
theorem startIosLogs_spawned (reg : Registry) (sessionId serverUrl : String)
    (deviceId : Option String) (env : StartEnv) :
    (startIosLogs reg sessionId serverUrl deviceId env).spawned =
      some (if isSimulatorId deviceId then
          { cmd := "xcrun",
            args :=
              if truthy deviceId then
                ["simctl", "spawn", deviceId.getD "", "log", "stream", "--level", "debug"]
              else ["simctl", "spawn", "booted", "log", "stream", "--level", "debug"],
            shell := false }
        else
          { cmd := "idevicesyslog",
            args := if truthy deviceId then ["-u", deviceId.getD ""] else [],
            shell := false }) := by
  simp only [startIosLogs]
  cases henv : env.exitCodeAfterSettle <;> simp [henv]

/-- The duplicate guard is the only early return of
executeStartLogBroadcast: when it does not fire, the call is the
post-guard pipeline (src/unnamed/part_000 lines 47-91). -/
theorem executeStart_eq_afterGuard (reg : Registry) (sessionId : String)
    (p : Platform) (serverUrl? providedDeviceId : Option String) (env : StartEnv)
    (hdup : dupGuard reg sessionId = false) :
    executeStartLogBroadcast reg sessionId p serverUrl? providedDeviceId env =
      startAfterGuard reg sessionId p
        (orDefault serverUrl? "http://localhost:4723") providedDeviceId env := by
  cases hr : rlookup reg sessionId with
  | none => simp [executeStartLogBroadcast, hr]
  | some s =>
      have hstream : s.isStreaming = false := by
        simpa [dupGuard, hr] using hdup
      simp [executeStartLogBroadcast, hr, hstream]

/-- Claim C6: an iOS start with a supplied (non-empty) deviceId takes the
simulator path (xcrun simctl spawn deviceId log stream --level debug) exactly
when the id contains a hyphen or is longer than 25 characters, and the device
path (idevicesyslog -u deviceId) otherwise. -/
theorem ios_device_classification (reg : Registry) (sessionId : String)
    (serverUrl? : Option String) (env : StartEnv) (d : String)
    (hdup : dupGuard reg sessionId = false) (hd : d ≠ "") :
    isSimulatorId (some d) = (d.toList.contains '-' || decide (d.length > 25)) ∧
    (executeStartLogBroadcast reg sessionId Platform.ios serverUrl? (some d) env).spawned =
      some (if d.toList.contains '-' || decide (d.length > 25) then
          { cmd := "xcrun",
            args := ["simctl", "spawn", d, "log", "stream", "--level", "debug"],
            shell := false }
        else { cmd := "idevicesyslog", args := ["-u", d], shell := false }) := by
  have htr : truthy (some d) = true := by simp [truthy, hd]
  have hres : resolveDeviceId (some d) env = some d := by
    simp [resolveDeviceId, htr]
  have hsim : isSimulatorId (some d) =
      (d.toList.contains '-' || decide (d.length > 25)) := by
    simp [isSimulatorId, hd]
  refine ⟨hsim, ?_⟩
  rw [executeStart_eq_afterGuard reg sessionId Platform.ios serverUrl? (some d) env hdup]
  simp only [startAfterGuard]
  rw [hres, startIosLogs_spawned]
  simp [hsim, htr]

def classDemoEnv : StartEnv :=
  { axiosOk := false, udidField := none, pid := 51, stdoutChunks := [],
    exitCodeAfterSettle := none }

/-- Witness for C6: the hyphenated id 00008030-001C2D takes the simulator
path and the 12-character id a1b2c3d4e5f6 takes the device path. -/
theorem ios_device_classification_check :
    (executeStartLogBroadcast [] "s1" Platform.ios none
        (some "00008030-001C2D") classDemoEnv).spawned =
      some { cmd := "xcrun",
             args := ["simctl", "spawn", "00008030-001C2D", "log", "stream",
               "--level", "debug"],
             shell := false } ∧
    (executeStartLogBroadcast [] "s2" Platform.ios none
        (some "a1b2c3d4e5f6") classDemoEnv).spawned =
      some { cmd := "idevicesyslog", args := ["-u", "a1b2c3d4e5f6"],
             shell := false } := by
  constructor
  · have h := (ios_device_classification [] "s1" none classDemoEnv
      "00008030-001C2D" rfl (by decide)).2
    rw [h]
    rfl
  · have h := (ios_device_classification [] "s2" none classDemoEnv
      "a1b2c3d4e5f6" rfl (by decide)).2
    rw [h]
    rfl

/-- Claim C10: an iOS start without a deviceId classifies as not-simulator
and spawns idevicesyslog with no arguments; the `xcrun simctl spawn booted`
fallback can never be the spawned command, for any deviceId, because the
simulator branch is only reached with a truthy deviceId. -/
theorem ios_no_device_uses_idevicesyslog (reg : Registry)
    (sessionId serverUrl : String) (env : StartEnv) (deviceId : Option String) :
    isSimulatorId none = false ∧
    (startIosLogs reg sessionId serverUrl none env).spawned =
      some { cmd := "idevicesyslog", args := [], shell := false } ∧
    (isSimulatorId deviceId = true → truthy deviceId = true) ∧
    (startIosLogs reg sessionId serverUrl deviceId env).spawned ≠
      some { cmd := "xcrun",
             args := ["simctl", "spawn", "booted", "log", "stream", "--level",
               "debug"],
             shell := false } := by
  refine ⟨rfl, ?_, ?_, ?_⟩
  · rw [startIosLogs_spawned]
    simp [isSimulatorId, truthy]
  · intro hsim
    cases deviceId with
    | none => simp [isSimulatorId] at hsim
    | some d =>
        by_cases hd : d = ""
        · rw [hd] at hsim
          simp [isSimulatorId] at hsim
        · simp [truthy, hd]
  · rw [startIosLogs_spawned]
    cases hI : isSimulatorId deviceId
    · simp
    · cases deviceId with
      | none => simp [isSimulatorId] at hI
      | some d =>
          have hd : ¬d = "" := by
            intro h
            rw [h] at hI
            exact absurd hI (by decide)
          have hb : d ≠ "booted" := by
            intro h
            rw [h] at hI
            exact absurd hI (by decide)
          simp [truthy, hd, hb]

/-- Witness for C10 at concrete inputs. -/
theorem ios_no_device_uses_idevicesyslog_check :
    isSimulatorId none = false ∧
    (startIosLogs [] "s1" "http://localhost:4723" none classDemoEnv).spawned =
      some { cmd := "idevicesyslog", args := [], shell := false } ∧
    (isSimulatorId (some "a-b") = true → truthy (some "a-b") = true) ∧
    (startIosLogs [] "s1" "http://localhost:4723" (some "a-b")
        classDemoEnv).spawned ≠
      some { cmd := "xcrun",
             args := ["simctl", "spawn", "booted", "log", "stream", "--level",
               "debug"],
             shell := false } :=
  ios_no_device_uses_idevicesyslog [] "s1" "http://localhost:4723"
    classDemoEnv (some "a-b")
